import Mathlib

/-!
Shallow embedding of the Nelson-hash/honeypot data-collection pipeline.

The repository ships three near-duplicate variants of the collection code:
  * variant 1: src/src/lib/supabase.ts, first section (supabase-js client,
    `logVisitor`, `fetch(service, { timeout: 5000 } as any)`);
  * variant 2: src/src/lib/supabase.ts, second section (throws at module
    load when unconfigured, `getVisitorIP` without dotted-quad validation,
    `logVisitor` that drops the record on insert error);
  * variant 3: src/src/lib/supabase.ts, third section and src/src/App.tsx
    (AbortController timeouts, `:port` stripping, `saveToSupabase` via the
    REST endpoint, `collectVisitorData`).

Asynchronous effects are embedded by passing the outcome of every external
interaction (network replies, the database insert, a possible runtime
exception inside a try block) explicitly in a `World`; the functions are
then total Lean functions of the world, mirroring the TypeScript control
flow statement by statement.
-/

namespace Honeypot

/-- A JavaScript value as far as this code inspects one: JSON field values
reached via property access.  `none` at a lookup models `undefined`. -/
inductive JsVal where
  | str (s : String)
  | num (n : Int)
  | boolean (b : Bool)
  | null
deriving DecidableEq

/-- A parsed JSON object body: field name to value. -/
abbrev JsObj : Type := List (String × JsVal)

/-- Property access `data.k`: `none` models `undefined` (missing key). -/
def jsLookup (data : JsObj) (k : String) : Option JsVal :=
  (List.find? (fun p => p.1 == k) data).map (fun p => p.2)

/-- JavaScript truthiness of a possibly-undefined value: `undefined`,
`null`, `""`, `0` and `false` are falsy. -/
def jsTruthy : Option JsVal → Bool
  | none => false
  | some JsVal.null => false
  | some (JsVal.str s) => !(s == "")
  | some (JsVal.num n) => !(n == 0)
  | some (JsVal.boolean b) => b

/-- A JavaScript `a || b || ...` chain: first truthy operand, otherwise the
last operand (which may itself be falsy or undefined). -/
def jsOrChain : List (Option JsVal) → Option JsVal
  | [] => none
  | [v] => v
  | v :: rest => if jsTruthy v then v else jsOrChain rest

/-- The guard `if (x && typeof x === 'string')` applied to an `||` chain
result: yields the string exactly when the value is a truthy string. -/
def asTruthyStr (v : Option JsVal) : Option String :=
  match v with
  | some (JsVal.str s) => if s = "" then none else some s
  | _ => none

/-- JavaScript `s || d` on strings (empty string is falsy). -/
def strOr (s d : String) : String := if s = "" then d else s

/-- JavaScript `x || d` where `x : string | null` (both `null` and `""`
fall through to the default). -/
def jsOrDefault (o : Option String) (d : String) : String :=
  match o with
  | some s => if s = "" then d else s
  | none => d

/-- Split a character list on `'.'` (same part boundaries as
`String.prototype.split('.')`). -/
def splitOnDot (acc : List Char) : List Char → List (List Char)
  | [] => [acc.reverse]
  | c :: cs => if c == '.' then acc.reverse :: splitOnDot [] cs else splitOnDot (c :: acc) cs

/-- The strict dotted-quad test of the source:
`ip.match(/^\d+\.\d+\.\d+\.\d+$/)` succeeds exactly when the string is four
dot-separated non-empty runs of ASCII digits. -/
def isDottedQuad (s : String) : Bool :=
  let parts := splitOnDot [] s.data
  parts.length == 4 && parts.all (fun p => !p.isEmpty && p.all (fun c => c.isDigit))

/-- `ip.split(':')[0]`: the characters before the first `':'` (the whole
string when there is no colon). -/
def cutAtColon (s : String) : String :=
  String.mk (s.data.takeWhile (fun c => !(c == ':')))

/-- One HTTP reply as the code observes it: how long the server took to
answer, the status code, and the result of `response.json()`
(`Except.error` models a body that is not valid JSON, so that the
`json()` promise rejects). -/
structure HttpReply where
  latencyMs : Nat
  status : Nat
  body : Except Unit JsObj

/-- What the network does for one GET: reject outright, or answer. -/
inductive FetchOutcome where
  | netError (msg : String)
  | reply (r : HttpReply)

/-- The second argument the source passes to `fetch`:
nothing, the nonstandard `{ timeout: ms } as any` object of variant 1, or
an `AbortController` signal wired to `setTimeout(() => controller.abort(), ms)`. -/
inductive FetchInit where
  | noOpts
  | nonstandardTimeout (ms : Nat)
  | withSignal (ms : Nat)

/-- The deadline the fetch API actually enforces for each init: the Fetch
standard has no `timeout` member on `RequestInit`, so unknown keys such as
variant 1's `{ timeout: 5000 } as any` are silently ignored; only an abort
signal cancels the request. -/
def effectiveDeadline : FetchInit → Option Nat
  | FetchInit.noOpts => none
  | FetchInit.nonstandardTimeout _ => none
  | FetchInit.withSignal ms => some ms

/-- `await fetch(url, init)` under an outcome: a network error rejects; a
reply slower than the enforced deadline is aborted (rejects); otherwise the
reply is delivered. -/
def fetchSem (init : FetchInit) (o : FetchOutcome) : Except String HttpReply :=
  match o with
  | FetchOutcome.netError msg => Except.error msg
  | FetchOutcome.reply r =>
    match effectiveDeadline init with
    | some d => if d < r.latencyMs then Except.error "AbortError" else Except.ok r
    | none => Except.ok r

/-- `response.ok`: status in the range 200..299. -/
def statusOk (st : Nat) : Bool := decide (200 ≤ st ∧ st < 300)

/-- The ordered service list of variant 1 (supabase.ts first section). -/
def services_v1 : List String :=
  ["https://api.ipify.org?format=json", "https://ipapi.co/json/",
   "https://api.my-ip.io/ip.json"]

/-- The ordered service list of variant 2 (supabase.ts second section). -/
def services_v2 : List String :=
  ["https://api.ipify.org?format=json", "https://ipapi.co/json/",
   "https://ipinfo.io/json"]

/-- The ordered service list of variant 3 (App.tsx and supabase.ts third
section). -/
def services_v3 : List String :=
  ["https://api.ipify.org?format=json", "https://ipapi.co/json/",
   "https://api.my-ip.io/ip.json", "https://httpbin.org/ip"]

/-- One loop iteration of variant 1's `getVisitorIP`: fetch with the
nonstandard `{ timeout: 5000 }` init, parse the body, take
`data.ip || data.query || data.ipAddress`, and return it only when it is a
truthy string matching the strict dotted-quad pattern; every failure is
caught and yields `none` (the loop continues). -/
def tryService_v1 (o : FetchOutcome) : Option String :=
  match fetchSem (FetchInit.nonstandardTimeout 5000) o with
  | Except.error _ => none
  | Except.ok r =>
    match r.body with
    | Except.error _ => none
    | Except.ok data =>
      match asTruthyStr (jsOrChain
          [jsLookup data "ip", jsLookup data "query", jsLookup data "ipAddress"]) with
      | none => none
      | some ip => if isDottedQuad ip then some ip else none

/-- One loop iteration of variant 2's `getVisitorIP`: plain `fetch(service)`
with no init at all, and the truthy string is returned without any format
validation. -/
def tryService_v2 (o : FetchOutcome) : Option String :=
  match fetchSem FetchInit.noOpts o with
  | Except.error _ => none
  | Except.ok r =>
    match r.body with
    | Except.error _ => none
    | Except.ok data =>
      asTruthyStr (jsOrChain
        [jsLookup data "ip", jsLookup data "query", jsLookup data "ipAddress"])

/-- One loop iteration of variant 3's `getVisitorIP`: AbortController with a
5000 ms timer, `if (!response.ok) continue`, the key set gains
`data.origin`, and the truthy string is cut at the first `':'` before the
dotted-quad check. -/
def tryService_v3 (o : FetchOutcome) : Option String :=
  match fetchSem (FetchInit.withSignal 5000) o with
  | Except.error _ => none
  | Except.ok r =>
    if !statusOk r.status then none
    else
      match r.body with
      | Except.error _ => none
      | Except.ok data =>
        match asTruthyStr (jsOrChain
            [jsLookup data "ip", jsLookup data "query", jsLookup data "ipAddress",
             jsLookup data "origin"]) with
        | none => none
        | some ip =>
          let cleanIP := cutAtColon ip
          if isDottedQuad cleanIP then some cleanIP else none

/-- The `for (const service of services)` loop: first successful iteration
wins, exhaustion yields `none`. -/
def firstHit (f : String → Option String) : List String → Option String
  | [] => none
  | s :: rest =>
    match f s with
    | some ip => some ip
    | none => firstHit f rest

/-- `getVisitorIP` of variant 1, as a function of the network. -/
def getVisitorIP_v1 (net : String → FetchOutcome) : Option String :=
  firstHit (fun s => tryService_v1 (net s)) services_v1

/-- `getVisitorIP` of variant 2. -/
def getVisitorIP_v2 (net : String → FetchOutcome) : Option String :=
  firstHit (fun s => tryService_v2 (net s)) services_v2

/-- `getVisitorIP` of variant 3. -/
def getVisitorIP_v3 (net : String → FetchOutcome) : Option String :=
  firstHit (fun s => tryService_v3 (net s)) services_v3

/-- The result object of `getGeoLocation`: `{ country?, city? }`.  The
source copies `data.country_name` and `data.city` without inspecting them,
so the fields hold raw JavaScript values; `none` models an absent or
`undefined` field (a failed lookup returns the empty object `{}`). -/
structure GeoInfo where
  country : Option JsVal := none
  city : Option JsVal := none
deriving DecidableEq

/-- `getGeoLocation` of variants 1 and 2 (the two sections are textually
identical): plain `fetch` with no init and no status check; any rejection
of the fetch or of `response.json()` is caught and yields `{}`; otherwise
the parsed body's `country_name` and `city` fields are returned as-is. -/
def getGeoLocation_v1 (o : FetchOutcome) : GeoInfo :=
  match fetchSem FetchInit.noOpts o with
  | Except.error _ => {}
  | Except.ok r =>
    match r.body with
    | Except.error _ => {}
    | Except.ok data =>
      { country := jsLookup data "country_name", city := jsLookup data "city" }

/-- `getGeoLocation` of variant 3: AbortController with a 5000 ms timer,
`if (!response.ok) throw new Error('Geo API failed')` (caught below), then
the same field copy; every failure yields `{}`. -/
def getGeoLocation_v3 (o : FetchOutcome) : GeoInfo :=
  match fetchSem (FetchInit.withSignal 5000) o with
  | Except.error _ => {}
  | Except.ok r =>
    if !statusOk r.status then {}
    else
      match r.body with
      | Except.error _ => {}
      | Except.ok data =>
        { country := jsLookup data "country_name", city := jsLookup data "city" }

/-- The URL `getGeoLocation` fetches for a resolved address. -/
def geoUrl (ip : String) : String := "https://ipapi.co/" ++ ip ++ "/json/"

/-- The two environment settings `VITE_SUPABASE_URL` and
`VITE_SUPABASE_ANON_KEY`; `none` models an unset variable. -/
structure Config where
  url : Option String
  key : Option String

/-- Truthiness of one environment setting (unset or empty is falsy). -/
def cfgPresent : Option String → Bool
  | none => false
  | some s => !(s == "")

/-- The configured test `supabaseUrl && supabaseAnonKey` shared by all
variants' configuration guards. -/
def supabaseConfigured (cfg : Config) : Bool :=
  cfgPresent cfg.url && cfgPresent cfg.key

/-- Module initialization of supabase.ts variant 1: it only issues a
`console.warn` when unconfigured and exports a `null` client, so loading
always succeeds. -/
def moduleInit_v1 (_cfg : Config) : Except String Unit := Except.ok ()

/-- Module initialization of supabase.ts variant 2:
`if (!supabaseUrl || !supabaseAnonKey) throw new Error(...)` at module
load, so an unconfigured page crashes before any collection runs. -/
def moduleInit_v2 (cfg : Config) : Except String Unit :=
  if supabaseConfigured cfg then Except.ok ()
  else Except.error "Missing Supabase environment variables"

/-- The synchronous client environment: the values the browser reads
deliver, assumed to succeed (the claims condition on this).  `rand1` and
`rand2` are the first and second draw of
`Math.random().toString(36).substr(2, 9).toUpperCase()` — one session id
per `getVisitorInfo()` call. -/
structure SyncEnv where
  rand1 : String
  rand2 : String
  userAgent : String
  referrer : String
  screenW : Nat
  screenH : Nat
  timezone : String
  nowIso : String

/-- The single record shape (`VisitorLog` / `VisitorData` in the source);
every field is optional and `none` models an absent, `undefined` or `null`
field.  `country` and `city` hold raw JSON values because the source copies
them unchecked. -/
structure VisitorLog where
  ip_address : Option String := none
  user_agent : Option String := none
  timestamp : Option String := none
  country : Option JsVal := none
  city : Option JsVal := none
  session_id : Option String := none
  referrer : Option String := none
  screen_resolution : Option String := none
  timezone : Option String := none
deriving DecidableEq

/-- `getVisitorInfo` of variants 1 and 2 (identical text): session id from
the given random draw, user agent, `document.referrer || 'Direct'`,
`${screen.width}x${screen.height}`, and the IANA timezone. -/
def getVisitorInfo_v1 (env : SyncEnv) (sid : String) : VisitorLog :=
  { session_id := some sid
    user_agent := some env.userAgent
    referrer := some (strOr env.referrer "Direct")
    screen_resolution := some (toString env.screenW ++ "x" ++ toString env.screenH)
    timezone := some env.timezone }

/-- `getVisitorInfo` of variant 3: same fields except that no referrer is
collected. -/
def getVisitorInfo_v3 (env : SyncEnv) (sid : String) : VisitorLog :=
  { session_id := some sid
    user_agent := some env.userAgent
    screen_resolution := some (toString env.screenW ++ "x" ++ toString env.screenH)
    timezone := some env.timezone }

/-- Outcome of the REST `POST .../rest/v1/visitor_logs` call of
`saveToSupabase`: rejection, or a reply with a status and a body text. -/
inductive PostOutcome where
  | netError (msg : String)
  | reply (status : Nat) (bodyText : String)

/-- Result shape of `saveToSupabase`: `{ success, error? }`. -/
structure SaveResult where
  success : Bool
  error : Option String := none
deriving DecidableEq

/-- `saveToSupabase` of variant 3, paired with the list of request URLs it
issues (so that "no network call" is a provable statement).  Unconfigured:
no call, `{ success: false, error: 'Supabase not configured' }`.  Rejected
POST: caught, the error's message.  Non-2xx: a thrown
`Supabase error: <status> - <text>` message, caught below.  2xx: success. -/
def saveToSupabase (cfg : Config) (post : PostOutcome) : SaveResult × List String :=
  if !supabaseConfigured cfg then
    ({ success := false, error := some "Supabase not configured" }, [])
  else
    let url := (match cfg.url with | some u => u | none => "") ++ "/rest/v1/visitor_logs"
    match post with
    | PostOutcome.netError msg => ({ success := false, error := some msg }, [url])
    | PostOutcome.reply st txt =>
      if statusOk st then ({ success := true }, [url])
      else
        ({ success := false,
           error := some ("Supabase error: " ++ toString st ++ " - " ++ txt) }, [url])

/-- Every external outcome one page load can observe, plus the synchronous
environment.  `net` is the network's answer per GET URL, `post` the REST
insert's outcome, `insert` the supabase-js `insert(...)` call of variants
1 and 2 (`Except.error` = the promise rejects, `Except.ok (some m)` = an
error object with message `m`, `Except.ok none` = success), and `fault` a
runtime exception raised inside the top-level try block, if any (in
JavaScript any awaited step may reject; the code's own catch handlers are
written for exactly that case). -/
structure World where
  net : String → FetchOutcome
  post : PostOutcome
  insert : Except String (Option String)
  cfg : Config
  env : SyncEnv
  fault : Option String

/-- Result shape of `logVisitor` (variants 1 and 2):
`{ success, data?, error? }`. -/
structure LogResult where
  success : Bool
  data : Option VisitorLog := none
  error : Option String := none
deriving DecidableEq

/-- The record `logVisitor` of variant 1 assembles:
`{ ...visitorInfo, ip_address: ip, ...geoInfo }`, where geo resolution is
attempted only when an address was resolved, and the record carries no
timestamp field. -/
def logData_v1 (w : World) : VisitorLog :=
  let ip := getVisitorIP_v1 w.net
  let info := getVisitorInfo_v1 w.env w.env.rand1
  let geo : GeoInfo :=
    match ip with
    | some i => getGeoLocation_v1 (w.net (geoUrl i))
    | none => {}
  { info with ip_address := ip, country := geo.country, city := geo.city }

/-- `logVisitor` of variant 1.  Configured: insert into supabase; an insert
error object returns `{ success: false, error, data: logData }` (the
successful insert returns the inserted row, taken here to be the assembled
record).  Unconfigured: demo mode, `{ success: true, data: logData }`.  A
rejection anywhere in the try block lands in the catch, which returns the
bare `{ ip_address: 'Error collecting IP' }` record. -/
def logVisitor_v1 (w : World) : LogResult :=
  match w.fault with
  | some msg =>
    { success := false, error := some msg,
      data := some { ip_address := some "Error collecting IP" } }
  | none =>
    let logData := logData_v1 w
    if supabaseConfigured w.cfg then
      match w.insert with
      | Except.error msg =>
        { success := false, error := some msg,
          data := some { ip_address := some "Error collecting IP" } }
      | Except.ok (some msg) =>
        { success := false, error := some msg, data := some logData }
      | Except.ok none => { success := true, data := some logData }
    else
      { success := true, data := some logData }

/-- The record `logVisitor` of variant 2 assembles (same merge as variant
1, but the address comes from the unvalidating `getVisitorIP`). -/
def logData_v2 (w : World) : VisitorLog :=
  let ip := getVisitorIP_v2 w.net
  let info := getVisitorInfo_v1 w.env w.env.rand1
  let geo : GeoInfo :=
    match ip with
    | some i => getGeoLocation_v1 (w.net (geoUrl i))
    | none => {}
  { info with ip_address := ip, country := geo.country, city := geo.city }

/-- `logVisitor` of variant 2 (this module threw at load time when
unconfigured, so the client exists unconditionally here).  An insert error
returns `{ success: false, error: error.message }` — without the record —
and the catch path likewise returns no record. -/
def logVisitor_v2 (w : World) : LogResult :=
  match w.fault with
  | some msg => { success := false, error := some msg }
  | none =>
    let logData := logData_v2 w
    match w.insert with
    | Except.error msg => { success := false, error := some msg }
    | Except.ok (some msg) => { success := false, error := some msg }
    | Except.ok none => { success := true, data := some logData }

/-- Result shape of `collectVisitorData`: `{ success, data, error? }` —
the record is not optional here. -/
structure CollectResult where
  success : Bool
  data : VisitorLog
  error : Option String := none
deriving DecidableEq

/-- The record `collectVisitorData` (variant 3) assembles:
`{ ...visitorInfo, ip_address: ip || 'Unable to detect', ...geoInfo,
timestamp: new Date().toISOString() }`. -/
def visitorData_v3 (w : World) : VisitorLog :=
  let ip := getVisitorIP_v3 w.net
  let info := getVisitorInfo_v3 w.env w.env.rand1
  let geo : GeoInfo :=
    match ip with
    | some i => getGeoLocation_v3 (w.net (geoUrl i))
    | none => {}
  { info with
    ip_address := some (jsOrDefault ip "Unable to detect"),
    country := geo.country, city := geo.city,
    timestamp := some w.env.nowIso }

/-- `collectVisitorData` of variant 3 (App.tsx and supabase.ts third
section): assemble the record, attempt the save, and report
`success: true` with the in-memory record regardless of the save's
outcome (the save's error is passed along).  The catch path re-runs
`getVisitorInfo()` — drawing a second session id — and returns the
fallback record with `ip_address: 'Collection failed'`. -/
def collectVisitorData (w : World) : CollectResult :=
  match w.fault with
  | some msg =>
    { success := false
      data := { getVisitorInfo_v3 w.env w.env.rand2 with
                ip_address := some "Collection failed"
                timestamp := some w.env.nowIso }
      error := some msg }
  | none =>
    let vd := visitorData_v3 w
    let save := (saveToSupabase w.cfg w.post).1
    { success := true, data := vd
      error := if save.success then none else save.error }

/-- Does `needle` occur at the head of the character list? -/
def listLead : List Char → List Char → Bool
  | [], _ => true
  | _ :: _, [] => false
  | a :: as, b :: bs => a == b && listLead as bs

/-- `String.prototype.includes` on character lists. -/
def listHas (needle : List Char) : List Char → Bool
  | [] => needle.isEmpty
  | c :: cs => listLead needle (c :: cs) || listHas needle cs

/-- JavaScript `hay.includes(needle)`. -/
def strIncludes (hay needle : String) : Bool := listHas needle.data hay.data

/-- JavaScript `toLowerCase` for the ASCII strings at hand. -/
def strLower (s : String) : String := String.mk (s.data.map Char.toLower)

/-- JavaScript `s.substring(0, 3)`. -/
def strTake3 (s : String) : String := String.mk (s.data.take 3)

/-- Modelled from the spec: no `classifyRelay` exists anywhere under src/
(the heuristic classifier of spec section 4.4 is code of the repository
that is not in the provided sources), so this follows the spec's words:
lower-case all three of timezone, country and city, and flag likely-relay
exactly when the timezone string contains neither the full country name,
nor the city name, nor the first three characters of the country name. -/
def classifyRelay (timezone country city : String) : Bool :=
  let tz := strLower timezone
  let co := strLower country
  let ci := strLower city
  !(strIncludes tz co || strIncludes tz ci || strIncludes tz (strTake3 co))

/-- A network where every host is unreachable. -/
def netDown : String → FetchOutcome := fun _ => FetchOutcome.netError "unreachable"

/-- A network where the first IP service answers
`{ "ip": "203.0.113.5:443" }` immediately and everything else is
unreachable. -/
def netPortIp : String → FetchOutcome := fun u =>
  if u == "https://api.ipify.org?format=json" then
    FetchOutcome.reply
      { latencyMs := 0, status := 200,
        body := Except.ok [("ip", JsVal.str "203.0.113.5:443")] }
  else FetchOutcome.netError "unreachable"

/-- A network where the first IP service answers `{ "ip": "203.0.113.5" }`
after ten seconds and everything else is unreachable. -/
def netLate : String → FetchOutcome := fun u =>
  if u == "https://api.ipify.org?format=json" then
    FetchOutcome.reply
      { latencyMs := 10000, status := 200,
        body := Except.ok [("ip", JsVal.str "203.0.113.5")] }
  else FetchOutcome.netError "unreachable"

/-- A network where every host answers `{ "ip": "snakes" }` — a truthy
string under the recognized keys that is not a dotted quad. -/
def netMal : String → FetchOutcome := fun _ =>
  FetchOutcome.reply
    { latencyMs := 0, status := 200, body := Except.ok [("ip", JsVal.str "snakes")] }

/-- A concrete synchronous environment. -/
def env0 : SyncEnv :=
  { rand1 := "AAAAAAAAA", rand2 := "BBBBBBBBB", userAgent := "TestAgent/1.0",
    referrer := "", screenW := 1920, screenH := 1080,
    timezone := "Europe/Paris", nowIso := "2026-01-01T00:00:00.000Z" }

/-- A present configuration. -/
def cfgOk : Config := { url := some "https://example.supabase.co", key := some "anon-key" }

/-- A concrete world: network down, storage unconfigured, no fault. -/
def world0 : World :=
  { net := netDown, post := PostOutcome.netError "unreachable",
    insert := Except.ok none, cfg := { url := none, key := none },
    env := env0, fault := none }

/-- A concrete world where the storage is configured and the supabase-js
insert reports an error object with message "boom". -/
def worldInsertErr : World :=
  { world0 with cfg := cfgOk, insert := Except.ok (some "boom") }

/-- Is an optional resolution result a strict dotted quad when present? -/
def optQuad : Option String → Bool
  | none => true
  | some s => isDottedQuad s

/-- Is an optional resolution result non-empty when present? -/
def optNonempty : Option String → Bool
  | none => true
  | some s => !(s == "")

theorem asTruthyStr_nonempty (v : Option JsVal) : optNonempty (asTruthyStr v) = true := by
  unfold asTruthyStr
  split
  · split
    · rfl
    · next h => simp [optNonempty, h]
  · rfl

theorem tryService_v1_quad (o : FetchOutcome) : optQuad (tryService_v1 o) = true := by
  unfold tryService_v1
  split
  · rfl
  · split
    · rfl
    · split
      · rfl
      · split
        · next h => simp [optQuad, h]
        · rfl

theorem tryService_v3_quad (o : FetchOutcome) : optQuad (tryService_v3 o) = true := by
  unfold tryService_v3
  split
  · rfl
  · split
    · rfl
    · split
      · rfl
      · split
        · rfl
        · next ip heq =>
          dsimp only
          split
          · next h => simp [optQuad, h]
          · rfl

theorem tryService_v2_nonempty (o : FetchOutcome) : optNonempty (tryService_v2 o) = true := by
  unfold tryService_v2
  split
  · rfl
  · split
    · rfl
    · exact asTruthyStr_nonempty _

theorem firstHit_pred {p : Option String → Bool} {f : String → Option String}
    (hn : p none = true) (hf : ∀ s, p (f s) = true) :
    ∀ l : List String, p (firstHit f l) = true := by
  intro l
  induction l with
  | nil => exact hn
  | cons s rest ih =>
    unfold firstHit
    cases h : f s with
    | some ip =>
      have h2 := hf s
      rw [h] at h2
      simpa using h2
    | none => simpa using ih

theorem firstHit_congr {f g : String → Option String} :
    ∀ l : List String, (∀ u, u ∈ l → f u = g u) → firstHit f l = firstHit g l := by
  intro l
  induction l with
  | nil => intro _; rfl
  | cons s rest ih =>
    intro h
    unfold firstHit
    rw [h s (List.mem_cons_self s rest)]
    cases g s with
    | some ip => rfl
    | none => exact ih (fun u hu => h u (List.mem_cons_of_mem s hu))

theorem jsOrDefault_ne_empty (o : Option String) (d : String) (hd : d ≠ "") :
    jsOrDefault o d ≠ "" := by
  cases o with
  | none => simpa [jsOrDefault] using hd
  | some s =>
    by_cases h : s = ""
    · simpa [jsOrDefault, h] using hd
    · simp [jsOrDefault, h]

/-- C1 (counterexample): the claim fails on variant 2's `getVisitorIP`
(supabase.ts lines 160-184), which performs no dotted-quad validation: when
the first endpoint answers `{ "ip": "snakes" }`, it returns the malformed
string "snakes". -/
theorem getVisitorIP_v2_returns_malformed :
    getVisitorIP_v2 netMal = some "snakes" ∧ isDottedQuad "snakes" = false :=
  ⟨by decide, by decide⟩

/-- C1 (amended): for every network behaviour, the `getVisitorIP` of
variants 1 and 3 returns either a strict dotted-quad string or no value and
never raises (the per-service catch absorbs every failure); variant 2's
`getVisitorIP` also never raises but returns the first truthy string found
under the recognized keys without any format validation (it is only
guaranteed non-empty). -/
theorem getVisitorIP_quad_or_none (net : String → FetchOutcome) :
    optQuad (getVisitorIP_v1 net) = true
    ∧ optQuad (getVisitorIP_v3 net) = true
    ∧ optNonempty (getVisitorIP_v2 net) = true :=
  ⟨firstHit_pred rfl (fun s => tryService_v1_quad (net s)) services_v1,
   firstHit_pred rfl (fun s => tryService_v3_quad (net s)) services_v3,
   firstHit_pred rfl (fun s => tryService_v2_nonempty (net s)) services_v2⟩

/-- C5 (code slip): variant 1 passes `{ timeout: 5000 } as any` to `fetch`,
but the fetch API has no `timeout` init member, so no deadline is enforced:
a reply arriving after ten seconds is still awaited and its address
returned instead of the endpoint being abandoned at five seconds.  Variant
3's AbortController wiring does enforce the five-second deadline (the same
ten-second reply is abandoned, and with every other endpoint failing the
resolution yields no value). -/
theorem getVisitorIP_v1_consumes_late_reply :
    getVisitorIP_v1 netLate = some "203.0.113.5"
    ∧ getVisitorIP_v3 netLate = none
    ∧ effectiveDeadline (FetchInit.nonstandardTimeout 5000) = none
    ∧ effectiveDeadline (FetchInit.withSignal 5000) = some 5000 :=
  ⟨by decide, by decide, rfl, rfl⟩

/-- C6 (counterexample): the claim fails on variant 1's `getVisitorIP`
(supabase.ts lines 41-44), which never strips a `:port` suffix: given the
first-endpoint response `{ "ip": "203.0.113.5:443" }` it rejects the value
and (all later endpoints failing) returns no value rather than
"203.0.113.5"; variant 2 returns the raw "203.0.113.5:443" unstripped. -/
theorem getVisitorIP_v1_rejects_ip_with_port :
    getVisitorIP_v1 netPortIp = none
    ∧ getVisitorIP_v2 netPortIp = some "203.0.113.5:443" :=
  ⟨by decide, by decide⟩

/-- C6 (amended): in variant 3 (App.tsx lines 294-302 and the third
supabase.ts section), whenever the first endpoint responds
`{ "ip": "203.0.113.5:443" }`, the trailing `:port` is stripped before the
dotted-quad validation and `getVisitorIP` returns "203.0.113.5". -/
theorem getVisitorIP_v3_strips_port (net : String → FetchOutcome)
    (h : net "https://api.ipify.org?format=json" = FetchOutcome.reply
      { latencyMs := 0, status := 200,
        body := Except.ok [("ip", JsVal.str "203.0.113.5:443")] }) :
    getVisitorIP_v3 net = some "203.0.113.5" := by
  have h1 : tryService_v3 (net "https://api.ipify.org?format=json") = some "203.0.113.5" := by
    rw [h]; decide
  simp [getVisitorIP_v3, services_v3, firstHit, h1]

theorem getVisitorIP_v3_strips_port_witness :
    getVisitorIP_v3 netPortIp = some "203.0.113.5" :=
  getVisitorIP_v3_strips_port netPortIp rfl

/-- C9: the relay heuristic (modelled from the spec, absent from src/) is a
deterministic function of timezone, country and city; it classifies
("Europe/Paris", "France", "Paris") as not-relay and
("America/New_York", "France", "Paris") as likely-relay; and it flags
likely-relay exactly when the lower-cased timezone contains neither the
lower-cased country, nor the lower-cased city, nor the first three
characters of the lower-cased country. -/
theorem classifyRelay_spec_examples :
    classifyRelay "Europe/Paris" "France" "Paris" = false
    ∧ classifyRelay "America/New_York" "France" "Paris" = true
    ∧ ∀ tz co ci, classifyRelay tz co ci =
        !(strIncludes (strLower tz) (strLower co)
          || strIncludes (strLower tz) (strLower ci)
          || strIncludes (strLower tz) (strTake3 (strLower co))) :=
  ⟨by decide, by decide, fun _ _ _ => rfl⟩

/-- C2 (counterexample): the claim fails on variant 2's `logVisitor`
(supabase.ts lines 244-247): when the insert reports an error object, the
function returns `{ success: false, error }` without the collected record —
none of the collected fields reach the caller. -/
theorem logVisitor_v2_drops_record_on_insert_error :
    logVisitor_v2 worldInsertErr
      = { success := false, data := none, error := some "boom" } := by
  decide

/-- C2 (amended): variant 1's `logVisitor` returns the intact assembled
record alongside the insert failure, and variant 3's `collectVisitorData`
returns the assembled record whatever the persistence outcome was, with the
collected fields unchanged; only variant 2 drops the record. -/
theorem persist_failure_returns_intact_record (w : World) (msg : String)
    (hf : w.fault = none) (hc : supabaseConfigured w.cfg = true)
    (hi : w.insert = Except.ok (some msg)) :
    logVisitor_v1 w
      = { success := false, data := some (logData_v1 w), error := some msg }
    ∧ (collectVisitorData w).data = visitorData_v3 w
    ∧ (logData_v1 w).session_id = some w.env.rand1
    ∧ (logData_v1 w).user_agent = some w.env.userAgent
    ∧ (logData_v1 w).timezone = some w.env.timezone
    ∧ (logData_v1 w).screen_resolution
        = some (toString w.env.screenW ++ "x" ++ toString w.env.screenH)
    ∧ (logData_v1 w).ip_address = getVisitorIP_v1 w.net
    ∧ (visitorData_v3 w).session_id = some w.env.rand1
    ∧ (visitorData_v3 w).user_agent = some w.env.userAgent
    ∧ (visitorData_v3 w).timezone = some w.env.timezone
    ∧ (visitorData_v3 w).timestamp = some w.env.nowIso := by
  refine ⟨?_, ?_, ?_, ?_, ?_, ?_, ?_, ?_, ?_, ?_, ?_⟩
  · simp [logVisitor_v1, hf, hc, hi]
  · simp [collectVisitorData, hf]
  · simp [logData_v1, getVisitorInfo_v1]
  · simp [logData_v1, getVisitorInfo_v1]
  · simp [logData_v1, getVisitorInfo_v1]
  · simp [logData_v1, getVisitorInfo_v1]
  · simp [logData_v1, getVisitorInfo_v1]
  · simp [visitorData_v3, getVisitorInfo_v3]
  · simp [visitorData_v3, getVisitorInfo_v3]
  · simp [visitorData_v3, getVisitorInfo_v3]
  · simp [visitorData_v3, getVisitorInfo_v3]

theorem persist_failure_returns_intact_record_witness :
    logVisitor_v1 worldInsertErr
      = { success := false, data := some (logData_v1 worldInsertErr), error := some "boom" }
    ∧ (collectVisitorData worldInsertErr).data = visitorData_v3 worldInsertErr
    ∧ (logData_v1 worldInsertErr).session_id = some worldInsertErr.env.rand1
    ∧ (logData_v1 worldInsertErr).user_agent = some worldInsertErr.env.userAgent
    ∧ (logData_v1 worldInsertErr).timezone = some worldInsertErr.env.timezone
    ∧ (logData_v1 worldInsertErr).screen_resolution
        = some (toString worldInsertErr.env.screenW ++ "x" ++ toString worldInsertErr.env.screenH)
    ∧ (logData_v1 worldInsertErr).ip_address = getVisitorIP_v1 worldInsertErr.net
    ∧ (visitorData_v3 worldInsertErr).session_id = some worldInsertErr.env.rand1
    ∧ (visitorData_v3 worldInsertErr).user_agent = some worldInsertErr.env.userAgent
    ∧ (visitorData_v3 worldInsertErr).timezone = some worldInsertErr.env.timezone
    ∧ (visitorData_v3 worldInsertErr).timestamp = some worldInsertErr.env.nowIso :=
  persist_failure_returns_intact_record worldInsertErr "boom" rfl (by decide) rfl

/-- C3 (counterexample): the claim fails on variant 2's module
initialization (supabase.ts lines 140-142): with the API key absent it
throws "Missing Supabase environment variables" at module load, failing the
page instead of reporting "not configured". -/
theorem moduleInit_v2_throws_when_unconfigured :
    moduleInit_v2 { url := some "https://example.supabase.co", key := none }
      = Except.error "Missing Supabase environment variables" := rfl

/-- C3 (amended): with either credential absent, variant 3's
`saveToSupabase` issues no request and reports
`{ success: false, error: 'Supabase not configured' }`, and variant 1 runs
in demo mode (module load succeeds, `logVisitor` skips the insert and still
returns the record with success); variant 2, however, throws at module
initialization. -/
theorem unconfigured_sink_skips_network (cfg : Config) (post : PostOutcome) (w : World)
    (hcfg : supabaseConfigured cfg = false)
    (hw : supabaseConfigured w.cfg = false) (hf : w.fault = none) :
    saveToSupabase cfg post
      = ({ success := false, error := some "Supabase not configured" }, [])
    ∧ logVisitor_v1 w = { success := true, data := some (logData_v1 w), error := none }
    ∧ moduleInit_v1 cfg = Except.ok () := by
  refine ⟨?_, ?_, rfl⟩
  · simp [saveToSupabase, hcfg]
  · simp [logVisitor_v1, hf, hw]

theorem unconfigured_sink_skips_network_witness :
    saveToSupabase { url := none, key := some "anon-key" } (PostOutcome.reply 201 "")
      = ({ success := false, error := some "Supabase not configured" }, [])
    ∧ logVisitor_v1 world0
      = { success := true, data := some (logData_v1 world0), error := none }
    ∧ moduleInit_v1 { url := none, key := some "anon-key" } = Except.ok () :=
  unconfigured_sink_skips_network { url := none, key := some "anon-key" }
    (PostOutcome.reply 201 "") world0 (by decide) (by decide) rfl

/-- C4 (counterexample): variant 1's `logVisitor` assembles a record with
no timestamp at all, so capturedAt is not always populated; and on variant
3's fallback path the returned record carries the second random draw
("BBBBBBBBB"), a fresh session id generated in the catch handler rather
than the id generated in the try body ("AAAAAAAAA"). -/
theorem logVisitor_v1_record_lacks_timestamp :
    (logVisitor_v1 world0).data.map VisitorLog.timestamp = some none
    ∧ (collectVisitorData { world0 with fault := some "boom" }).data.session_id
        = some "BBBBBBBBB"
    ∧ world0.env.rand1 = "AAAAAAAAA" ∧ world0.env.rand2 = "BBBBBBBBB" :=
  ⟨by decide, by decide, rfl, rfl⟩

/-- C4 (amended): variant 3's `collectVisitorData` always returns a record
with session id and timestamp populated; on the normal path the session id
is the one drawn in the try body, but the fallback path draws a fresh
second id instead of reusing it; the `logVisitor` variants never populate a
timestamp on any returned record.  (Uniqueness across invocations rests on
`Math.random` and is probabilistic, outside this model.) -/
theorem collectVisitorData_session_and_timestamp (w : World) :
    ((collectVisitorData w).data.session_id).isSome = true
    ∧ (collectVisitorData w).data.timestamp = some w.env.nowIso
    ∧ (w.fault = none → (collectVisitorData w).data.session_id = some w.env.rand1)
    ∧ (∀ m, w.fault = some m → (collectVisitorData w).data.session_id = some w.env.rand2)
    ∧ (∀ r, (logVisitor_v1 w).data = some r → r.timestamp = none) := by
  cases hf : w.fault with
  | none =>
    refine ⟨?_, ?_, ?_, ?_, ?_⟩
    · simp [collectVisitorData, hf, visitorData_v3, getVisitorInfo_v3]
    · simp [collectVisitorData, hf, visitorData_v3, getVisitorInfo_v3]
    · intro _
      simp [collectVisitorData, hf, visitorData_v3, getVisitorInfo_v3]
    · intro m hm
      simp at hm
    · intro r hr
      by_cases hc : supabaseConfigured w.cfg = true
      · rcases hins : w.insert with msg | err
        · simp [logVisitor_v1, hf, hc, hins] at hr
          simp [← hr]
        · rcases herr : err with _ | msg
          · simp [logVisitor_v1, hf, hc, hins, herr] at hr
            simp [← hr, logData_v1, getVisitorInfo_v1]
          · simp [logVisitor_v1, hf, hc, hins, herr] at hr
            simp [← hr, logData_v1, getVisitorInfo_v1]
      · simp [logVisitor_v1, hf, hc] at hr
        simp [← hr, logData_v1, getVisitorInfo_v1]
  | some m0 =>
    refine ⟨?_, ?_, ?_, ?_, ?_⟩
    · simp [collectVisitorData, hf, getVisitorInfo_v3]
    · simp [collectVisitorData, hf, getVisitorInfo_v3]
    · intro hn
      simp at hn
    · intro m hm
      cases hm
      simp [collectVisitorData, hf, getVisitorInfo_v3]
    · intro r hr
      simp [logVisitor_v1, hf] at hr
      simp [← hr]

theorem collectVisitorData_session_and_timestamp_witness :
    ((collectVisitorData world0).data.session_id).isSome = true
    ∧ (collectVisitorData world0).data.timestamp = some world0.env.nowIso
    ∧ (world0.fault = none →
        (collectVisitorData world0).data.session_id = some world0.env.rand1)
    ∧ (∀ m, world0.fault = some m →
        (collectVisitorData world0).data.session_id = some world0.env.rand2)
    ∧ (∀ r, (logVisitor_v1 world0).data = some r → r.timestamp = none) :=
  collectVisitorData_session_and_timestamp world0

/-- C7: when no IP service yields an address, both pipelines build the
record with geo resolution skipped: the result is unchanged under any
alternative network behaviour that agrees on the IP service URLs (so no
geo request is consulted at all), the record's address field is `null` in
variant 1 and the sentinel "Unable to detect" in variant 3, and the geo
fields are absent. -/
theorem no_ip_skips_geo (w : World) (g : String → FetchOutcome)
    (h1 : getVisitorIP_v1 w.net = none) (h3 : getVisitorIP_v3 w.net = none)
    (hs1 : ∀ u, u ∈ services_v1 → g u = w.net u)
    (hs3 : ∀ u, u ∈ services_v3 → g u = w.net u) :
    logData_v1 { w with net := g } = logData_v1 w
    ∧ (logData_v1 w).ip_address = none
    ∧ (logData_v1 w).country = none ∧ (logData_v1 w).city = none
    ∧ visitorData_v3 { w with net := g } = visitorData_v3 w
    ∧ (visitorData_v3 w).ip_address = some "Unable to detect"
    ∧ (visitorData_v3 w).country = none ∧ (visitorData_v3 w).city = none := by
  have e1 : getVisitorIP_v1 g = getVisitorIP_v1 w.net :=
    firstHit_congr services_v1 (fun u hu => by rw [hs1 u hu])
  have e3 : getVisitorIP_v3 g = getVisitorIP_v3 w.net :=
    firstHit_congr services_v3 (fun u hu => by rw [hs3 u hu])
  refine ⟨?_, ?_, ?_, ?_, ?_, ?_, ?_, ?_⟩
  · simp [logData_v1, e1, h1]
  · simp [logData_v1, h1, getVisitorInfo_v1]
  · simp [logData_v1, h1, getVisitorInfo_v1]
  · simp [logData_v1, h1, getVisitorInfo_v1]
  · simp [visitorData_v3, e3, h3]
  · simp [visitorData_v3, h3, getVisitorInfo_v3, jsOrDefault]
  · simp [visitorData_v3, h3, getVisitorInfo_v3]
  · simp [visitorData_v3, h3, getVisitorInfo_v3]

/-- A network that behaves like `netDown` on every IP service URL but
answers geo lookups, for exercising the non-interference statement. -/
def netGeoAlive : String → FetchOutcome := fun u =>
  if services_v3.contains u then FetchOutcome.netError "unreachable"
  else
    FetchOutcome.reply
      { latencyMs := 0, status := 200,
        body := Except.ok [("country_name", JsVal.str "Mars")] }

theorem no_ip_skips_geo_witness :
    logData_v1 { world0 with net := netGeoAlive } = logData_v1 world0
    ∧ (logData_v1 world0).ip_address = none
    ∧ (logData_v1 world0).country = none ∧ (logData_v1 world0).city = none
    ∧ visitorData_v3 { world0 with net := netGeoAlive } = visitorData_v3 world0
    ∧ (visitorData_v3 world0).ip_address = some "Unable to detect"
    ∧ (visitorData_v3 world0).country = none ∧ (visitorData_v3 world0).city = none :=
  no_ip_skips_geo world0 netGeoAlive (by decide) (by decide)
    (by
      intro u hu
      simp [services_v1] at hu
      rcases hu with rfl | rfl | rfl <;> rfl)
    (by
      intro u hu
      simp [services_v3] at hu
      rcases hu with rfl | rfl | rfl | rfl <;> rfl)

/-- The reply used to refute C8 on variants 1 and 2: a non-2xx status whose
body still parses as JSON carrying geo fields. -/
def geoNon2xx : FetchOutcome :=
  FetchOutcome.reply
    { latencyMs := 0, status := 500,
      body := Except.ok [("country_name", JsVal.str "Nowhere"), ("city", JsVal.str "Void")] }

/-- C8 (counterexample): the claim fails on the `getGeoLocation` of
variants 1 and 2 (supabase.ts lines 68-81), which never checks
`response.ok`: a non-2xx reply whose body parses is not a failure for it —
the parsed fields are returned instead of the empty result. -/
theorem getGeoLocation_v1_non2xx_not_empty :
    getGeoLocation_v1 geoNon2xx
      = { country := some (JsVal.str "Nowhere"), city := some (JsVal.str "Void") }
    ∧ getGeoLocation_v1 geoNon2xx ≠ ({} : GeoInfo) :=
  ⟨by decide, by decide⟩

/-- C8 (amended): variant 3's `getGeoLocation` yields the empty result on
every failure — network error, reply past the five-second deadline,
non-2xx status, or unparseable body — and variants 1 and 2 yield the empty
result on network error and unparseable body (but not on a parseable
non-2xx reply); no variant propagates an exception (every outcome is
absorbed into a returned result). -/
theorem getGeoLocation_failure_yields_empty (msg : String) (r : HttpReply) :
    getGeoLocation_v3 (FetchOutcome.netError msg) = {}
    ∧ getGeoLocation_v1 (FetchOutcome.netError msg) = {}
    ∧ (5000 < r.latencyMs → getGeoLocation_v3 (FetchOutcome.reply r) = {})
    ∧ (statusOk r.status = false → getGeoLocation_v3 (FetchOutcome.reply r) = {})
    ∧ (r.body = Except.error () →
        getGeoLocation_v3 (FetchOutcome.reply r) = {}
        ∧ getGeoLocation_v1 (FetchOutcome.reply r) = {}) := by
  refine ⟨rfl, rfl, ?_, ?_, ?_⟩
  · intro hl
    simp [getGeoLocation_v3, fetchSem, effectiveDeadline, hl]
  · intro hs
    by_cases hl : 5000 < r.latencyMs <;>
      simp [getGeoLocation_v3, fetchSem, effectiveDeadline, hl, hs]
  · intro hb
    constructor
    · by_cases hl : 5000 < r.latencyMs
      · simp [getGeoLocation_v3, fetchSem, effectiveDeadline, hl]
      · by_cases hs : statusOk r.status <;>
          simp [getGeoLocation_v3, fetchSem, effectiveDeadline, hl, hs, hb]
    · simp [getGeoLocation_v1, fetchSem, effectiveDeadline, hb]

/-- The reply used as the concrete failing lookup for the C8 witness. -/
def geoBadReply : HttpReply :=
  { latencyMs := 9999, status := 500, body := Except.error () }

theorem getGeoLocation_failure_yields_empty_witness :
    getGeoLocation_v3 (FetchOutcome.netError "down") = {}
    ∧ getGeoLocation_v1 (FetchOutcome.netError "down") = {}
    ∧ (5000 < geoBadReply.latencyMs →
        getGeoLocation_v3 (FetchOutcome.reply geoBadReply) = {})
    ∧ (statusOk geoBadReply.status = false →
        getGeoLocation_v3 (FetchOutcome.reply geoBadReply) = {})
    ∧ (geoBadReply.body = Except.error () →
        getGeoLocation_v3 (FetchOutcome.reply geoBadReply) = {}
        ∧ getGeoLocation_v1 (FetchOutcome.reply geoBadReply) = {}) :=
  getGeoLocation_failure_yields_empty "down" geoBadReply

/-- C10: `collectVisitorData` is total over every world (it always resolves
with a result rather than propagating an error): the returned record always
carries a session id, the user agent, a screen resolution, the timezone and
a timestamp, its address field is a non-empty string — the sentinel
"Unable to detect" when resolution failed — and whenever a step inside the
try block throws, the function still resolves with `success: false`, the
thrown message as the error and a fallback record carrying the sentinel
"Collection failed" and a timestamp. -/
theorem collectVisitorData_total_and_populated (w : World) :
    ((collectVisitorData w).data.session_id).isSome = true
    ∧ (collectVisitorData w).data.user_agent = some w.env.userAgent
    ∧ ((collectVisitorData w).data.screen_resolution).isSome = true
    ∧ (collectVisitorData w).data.timezone = some w.env.timezone
    ∧ (collectVisitorData w).data.timestamp = some w.env.nowIso
    ∧ (∃ s, (collectVisitorData w).data.ip_address = some s ∧ s ≠ "")
    ∧ (w.fault = none → getVisitorIP_v3 w.net = none →
        (collectVisitorData w).data.ip_address = some "Unable to detect")
    ∧ (∀ m, w.fault = some m →
        (collectVisitorData w).success = false
        ∧ (collectVisitorData w).data.ip_address = some "Collection failed"
        ∧ (collectVisitorData w).error = some m) := by
  cases hf : w.fault with
  | none =>
    refine ⟨?_, ?_, ?_, ?_, ?_, ?_, ?_, ?_⟩
    · simp [collectVisitorData, hf, visitorData_v3, getVisitorInfo_v3]
    · simp [collectVisitorData, hf, visitorData_v3, getVisitorInfo_v3]
    · simp [collectVisitorData, hf, visitorData_v3, getVisitorInfo_v3]
    · simp [collectVisitorData, hf, visitorData_v3, getVisitorInfo_v3]
    · simp [collectVisitorData, hf, visitorData_v3, getVisitorInfo_v3]
    · refine ⟨jsOrDefault (getVisitorIP_v3 w.net) "Unable to detect", ?_, ?_⟩
      · simp [collectVisitorData, hf, visitorData_v3, getVisitorInfo_v3]
      · exact jsOrDefault_ne_empty _ _ (by decide)
    · intro _ hip
      simp [collectVisitorData, hf, visitorData_v3, getVisitorInfo_v3, hip, jsOrDefault]
    · intro m hm
      simp at hm
  | some m0 =>
    refine ⟨?_, ?_, ?_, ?_, ?_, ?_, ?_, ?_⟩
    · simp [collectVisitorData, hf, getVisitorInfo_v3]
    · simp [collectVisitorData, hf, getVisitorInfo_v3]
    · simp [collectVisitorData, hf, getVisitorInfo_v3]
    · simp [collectVisitorData, hf, getVisitorInfo_v3]
    · simp [collectVisitorData, hf, getVisitorInfo_v3]
    · exact ⟨"Collection failed", by simp [collectVisitorData, hf, getVisitorInfo_v3], by decide⟩
    · intro hn
      simp at hn
    · intro m hm
      cases hm
      refine ⟨?_, ?_, ?_⟩ <;> simp [collectVisitorData, hf, getVisitorInfo_v3]

theorem collectVisitorData_total_and_populated_witness :
    ((collectVisitorData world0).data.session_id).isSome = true
    ∧ (collectVisitorData world0).data.user_agent = some world0.env.userAgent
    ∧ ((collectVisitorData world0).data.screen_resolution).isSome = true
    ∧ (collectVisitorData world0).data.timezone = some world0.env.timezone
    ∧ (collectVisitorData world0).data.timestamp = some world0.env.nowIso
    ∧ (∃ s, (collectVisitorData world0).data.ip_address = some s ∧ s ≠ "")
    ∧ (world0.fault = none → getVisitorIP_v3 world0.net = none →
        (collectVisitorData world0).data.ip_address = some "Unable to detect")
    ∧ (∀ m, world0.fault = some m →
        (collectVisitorData world0).success = false
        ∧ (collectVisitorData world0).data.ip_address = some "Collection failed"
        ∧ (collectVisitorData world0).error = some m) :=
  collectVisitorData_total_and_populated world0

end Honeypot
